import Mathlib

/-!
Shallow embedding of the rule engine in `src/app.py` (technology classifier
and setup-plan synthesizer), together with theorems checking the
specification's claims about it.

Conventions of the embedding:
- A GitHub contents entry `{name, type}` becomes `Item`; the Python code only
  distinguishes `type == 'file'` from everything else.
- A Python step dictionary becomes the `Step` structure.
- `repo_data` enters the core only through its `language` field, modelled as
  `RepoData`.
- Python's substring test `pat in s` becomes `strContains s pat`, and
  `' '.join(files)` becomes `String.intercalate " " files`.
- The Python `set` used by `detect_technologies` is modelled as a
  duplicate-free list grown in insertion order (`setAdd`); every downstream
  use of the tag collection is a membership test, which this models exactly.
  The element ORDER of the Python `list(set)` result is NOT modelled (it is
  CPython hash-table iteration order).
-/

structure Item where
  name : String
  type : String
deriving DecidableEq, Repr

structure Step where
  title : String
  description : String
  commands : List String
  notes : List String
deriving DecidableEq, Repr

structure RepoData where
  language : Option String
deriving DecidableEq, Repr

/-- Python's `str.lower()`, character by character (the manifest names the
code lowers are ASCII, where `Char.toLower` agrees with Python). -/
def pyLower (s : String) : String := String.mk (s.data.map Char.toLower)

/-- Python's substring containment `pat in hay` on strings. -/
def strContains (hay pat : String) : Bool :=
  (List.range (hay.data.length + 1)).any (fun i => pat.data.isPrefixOf (hay.data.drop i))

/-- `files = [item['name'].lower() for item in contents if item['type'] == 'file']`,
the list comprehension repeated at app.py lines 90, 178, 219, 261, 288. -/
def filesOf (contents : List Item) : List String :=
  (contents.filter (fun i => i.type == "file")).map (fun i => pyLower i.name)

/-- `s.add x` on a Python set, modelled on a duplicate-free list. -/
def setAdd (s : List String) (x : String) : List String :=
  if x ∈ s then s else s ++ [x]

/-- The `tech_patterns` dict of app.py lines 97-116, in declaration order
(Python dicts iterate in insertion order). -/
def tech_patterns : List (String × List String) :=
  [ ("Python", ["requirements.txt", "setup.py", "pyproject.toml", "pipfile", "conda.yml", "environment.yml"])
  , ("Node.js", ["package.json", "package-lock.json", "yarn.lock"])
  , ("React", ["package.json"])
  , ("Django", ["manage.py", "django"])
  , ("Flask", ["app.py", "flask"])
  , ("FastAPI", ["fastapi", "uvicorn"])
  , ("Streamlit", ["streamlit", ".streamlit"])
  , ("Docker", ["dockerfile", "docker-compose.yml", "docker-compose.yaml"])
  , ("Java", ["pom.xml", "build.gradle", "gradle.properties"])
  , ("Go", ["go.mod", "go.sum"])
  , ("Rust", ["cargo.toml", "cargo.lock"])
  , ("Ruby", ["gemfile", "gemfile.lock"])
  , ("PHP", ["composer.json", "composer.lock"])
  , ("C++", ["makefile", "cmake", "cmakelists.txt"])
  , ("HTML/CSS/JS", ["index.html", "style.css", "script.js"])
  , ("Vue.js", ["vue.config.js", "nuxt.config.js"])
  , ("Angular", ["angular.json", "ng"])
  , ("Next.js", ["next.config.js"])
  ]

/-- `detect_technologies(contents, repo_data)` (app.py lines 87-122).
`if repo_data.get('language')` is Python truthiness: `None` and the empty
string are both falsy. Membership in the returned list coincides with
membership in the Python set `tech_stack`. -/
def detect_technologies (contents : List Item) (repo_data : RepoData) : List String :=
  tech_patterns.foldl
    (fun acc tp =>
      if tp.2.any (fun p => strContains (String.intercalate " " (filesOf contents)) p)
      then setAdd acc tp.1 else acc)
    (match repo_data.language with
     | some l => if l.isEmpty then [] else setAdd [] l
     | none => [])

/-- The clone step (app.py lines 142-150). -/
def clone_step (owner repo : String) : Step :=
  { title := "📥 Clone the Repository"
  , description := "Download the repository to your local machine"
  , commands := ["git clone https://github.com/" ++ owner ++ "/" ++ repo ++ ".git", "cd " ++ repo]
  , notes := ["Make sure you have Git installed on your system"] }

/-- The fixed virtual-environment step (app.py lines 181-192). -/
def python_env_step : Step :=
  { title := "🐍 Set up Python Environment"
  , description := "Create and activate a virtual environment"
  , commands :=
      [ "python -m venv venv"
      , "# On Windows:"
      , "venv\\Scripts\\activate"
      , "# On macOS/Linux:"
      , "source venv/bin/activate" ]
  , notes := ["Python 3.7+ recommended", "Virtual environment helps avoid dependency conflicts"] }

/-- The `install_commands` chain of app.py lines 195-205. -/
def install_commands (files : List String) : List String :=
  if "requirements.txt" ∈ files then ["pip install -r requirements.txt"]
  else if "setup.py" ∈ files then ["pip install -e ."]
  else if "pyproject.toml" ∈ files then ["pip install -e ."]
  else if "pipfile" ∈ files then ["pip install pipenv", "pipenv install"]
  else ["# Check for any Python dependencies and install manually"]

/-- The dependency-install step (app.py lines 207-212). -/
def install_step (files : List String) : Step :=
  { title := "📦 Install Dependencies"
  , description := "Install required Python packages"
  , commands := install_commands files
  , notes := ["Dependencies are listed in requirements.txt or similar files"] }

/-- `generate_python_steps(owner, repo, contents)` (app.py lines 175-214);
`owner`/`repo` are accepted but unused, as in the source. -/
def generate_python_steps (owner repo : String) (contents : List Item) : List Step :=
  [python_env_step, install_step (filesOf contents)]

/-- Package-manager choice of app.py lines 222-230: `(package_manager, install_cmd)`. -/
def node_pm (files : List String) : String × String :=
  if "yarn.lock" ∈ files then ("yarn", "yarn install")
  else if "package-lock.json" ∈ files then ("npm", "npm install")
  else ("npm", "npm install")

/-- `generate_node_steps(owner, repo, contents)` (app.py lines 216-242). -/
def generate_node_steps (owner repo : String) (contents : List Item) : List Step :=
  [ { title := "📦 Install Node.js Dependencies"
    , description := "Install packages using " ++ (node_pm (filesOf contents)).1
    , commands := [(node_pm (filesOf contents)).2]
    , notes :=
        [ "Make sure you have Node.js installed (version 14+ recommended)"
        , "This project uses " ++ (node_pm (filesOf contents)).1 ++ " as package manager" ] } ]

/-- `generate_docker_steps()` (app.py lines 244-257). -/
def generate_docker_steps : List Step :=
  [ { title := "🐳 Docker Setup (Alternative)"
    , description := "Run the application using Docker"
    , commands := ["docker build -t repo-app .", "docker run -p 8080:8080 repo-app"]
    , notes := ["Make sure Docker is installed and running", "Check Dockerfile for specific port configurations"] } ]

/-- The Maven step (app.py lines 264-272). -/
def maven_step : Step :=
  { title := "☕ Java Maven Setup"
  , description := "Build and run Java application with Maven"
  , commands := ["mvn clean install", "mvn spring-boot:run"]
  , notes := ["Make sure Java 8+ and Maven are installed"] }

/-- The Gradle step (app.py lines 274-282). -/
def gradle_step : Step :=
  { title := "☕ Java Gradle Setup"
  , description := "Build and run Java application with Gradle"
  , commands := ["./gradlew build", "./gradlew run"]
  , notes := ["Make sure Java 8+ is installed", "Gradle wrapper is included"] }

/-- `generate_java_steps(contents)` (app.py lines 259-284). -/
def generate_java_steps (contents : List Item) : List Step :=
  if "pom.xml" ∈ filesOf contents then [maven_step]
  else if (filesOf contents).any (fun f => strContains f "gradle") then [gradle_step]
  else []

/-- The Streamlit branch of the run-command cascade (app.py lines 294-300). -/
def streamlit_cmds (files : List String) : List String :=
  if "app.py" ∈ files then ["streamlit run app.py"]
  else if "main.py" ∈ files then ["streamlit run main.py"]
  else ["streamlit run <main_file>.py"]

/-- The Flask branch (app.py lines 302-308). -/
def flask_cmds (files : List String) : List String :=
  if "app.py" ∈ files then ["export FLASK_APP=app.py", "flask run"]
  else if "main.py" ∈ files then ["export FLASK_APP=main.py", "flask run"]
  else ["python app.py"]

/-- The Django branch (app.py lines 310-314). -/
def django_cmds : List String :=
  ["python manage.py migrate", "python manage.py runserver"]

/-- The FastAPI branch (app.py lines 316-320). -/
def fastapi_cmds (files : List String) : List String :=
  if "main.py" ∈ files then ["uvicorn main:app --reload"]
  else ["uvicorn app:app --reload"]

/-- The Node.js branch (app.py lines 322-325). -/
def node_cmds (tech_stack : List String) : List String :=
  "npm start" :: (if "React" ∈ tech_stack then ["# Or: npm run dev"] else [])

/-- The plain-Python branch (app.py lines 327-333). -/
def python_cmds (files : List String) : List String :=
  if "main.py" ∈ files then ["python main.py"]
  else if "app.py" ∈ files then ["python app.py"]
  else ["python <main_file>.py"]

/-- The `run_commands` cascade of app.py lines 292-333 (the `if`/`elif` chain). -/
def run_cmds (tech_stack : List String) (files : List String) : List String :=
  if "Streamlit" ∈ tech_stack then streamlit_cmds files
  else if "Flask" ∈ tech_stack then flask_cmds files
  else if "Django" ∈ tech_stack then django_cmds
  else if "FastAPI" ∈ tech_stack then fastapi_cmds files
  else if "Node.js" ∈ tech_stack then node_cmds tech_stack
  else if "Python" ∈ tech_stack then python_cmds files
  else []

/-- The run step wrapping `run_commands` (app.py lines 335-344). -/
def run_step_of (cmds : List String) : Step :=
  { title := "🚀 Run the Application"
  , description := "Start the application"
  , commands := cmds
  , notes :=
      [ "Check the README file for specific run instructions"
      , "Application will typically run on localhost with a specific port" ] }

/-- `env_files` nonemptiness, i.e. app.py line 347-348's truthiness test on
`[f for f in files if '.env' in f or 'config' in f]`. -/
def env_cond (files : List String) : Bool :=
  files.any (fun f => strContains f ".env" || strContains f "config")

/-- The Environment Configuration step (app.py lines 349-361). -/
def env_step : Step :=
  { title := "⚙️ Environment Configuration"
  , description := "Set up environment variables"
  , commands :=
      [ "# Copy example environment file (if exists)"
      , "cp .env.example .env"
      , "# Edit .env file with your configurations" ]
  , notes :=
      [ "Check for .env.example or similar configuration files"
      , "Add necessary API keys, database URLs, etc." ] }

/-- `generate_run_steps(tech_stack, contents, owner, repo)` (app.py lines 286-363);
`owner`/`repo` are accepted but unused, as in the source. -/
def generate_run_steps (tech_stack : List String) (contents : List Item) : List Step :=
  (if run_cmds tech_stack (filesOf contents) = [] then []
   else [run_step_of (run_cmds tech_stack (filesOf contents))]) ++
  (if env_cond (filesOf contents) then [env_step] else [])

/-- `generate_setup_steps(owner, repo, tech_stack, repo_data, contents)`
(app.py lines 137-173); `repo_data` is accepted but unused, as in the source. -/
def generate_setup_steps (owner repo : String) (tech_stack : List String)
    (repo_data : RepoData) (contents : List Item) : List Step :=
  [clone_step owner repo] ++
  (if "Python" ∈ tech_stack then generate_python_steps owner repo contents else []) ++
  (if "Node.js" ∈ tech_stack then generate_node_steps owner repo contents else []) ++
  (if "Docker" ∈ tech_stack then generate_docker_steps else []) ++
  (if "Java" ∈ tech_stack then generate_java_steps contents else []) ++
  generate_run_steps tech_stack contents

/-- C1: the run-command resolver is a first-match priority cascade: whenever the
Streamlit tag is present, the resolved commands are exactly those of the
Streamlit branch, and no later branch (Flask, Django, FastAPI, Node.js, Python)
influences the result; in particular, for the manifest containing only `app.py`
with tags `{Streamlit, Flask}`, the run step's commands are exactly
`["streamlit run app.py"]`, so no Flask command appears. -/
theorem streamlit_branch_priority (tech_stack : List String) (contents : List Item)
    (h : "Streamlit" ∈ tech_stack) :
    run_cmds tech_stack (filesOf contents) = streamlit_cmds (filesOf contents) ∧
    (generate_run_steps ["Streamlit", "Flask"] [⟨"app.py", "file"⟩]).head? =
      some (run_step_of ["streamlit run app.py"]) := by
  refine ⟨?_, by decide⟩
  simp [run_cmds, h]

/-- Witness for `streamlit_branch_priority` at a concrete input. -/
theorem streamlit_branch_priority_witness :
    run_cmds ["Streamlit"] (filesOf []) = streamlit_cmds (filesOf []) ∧
    (generate_run_steps ["Streamlit", "Flask"] [⟨"app.py", "file"⟩]).head? =
      some (run_step_of ["streamlit run app.py"]) :=
  streamlit_branch_priority ["Streamlit"] [] (by decide)

/-- C2: for every input, the first element of the setup plan is the Clone step,
and the Clone step has exactly two commands (clone, then change directory). -/
theorem setup_plan_clone_first (owner repo : String) (tech_stack : List String)
    (repo_data : RepoData) (contents : List Item) :
    (generate_setup_steps owner repo tech_stack repo_data contents).head? =
      some (clone_step owner repo) ∧
    (clone_step owner repo).commands.length = 2 :=
  ⟨rfl, rfl⟩

/-- C4 counterexample: in the Flask branch with neither `app.py` nor `main.py`
in the manifest, the code emits the concrete command `python app.py` (which
names a specific, absent file and contains no placeholder marker), not a
placeholder; moreover the plain-Python branch prefers `main.py` over `app.py`. -/
theorem flask_fallback_concrete :
    run_cmds ["Flask"] (filesOf [⟨"readme.md", "file"⟩]) = ["python app.py"] ∧
    strContains "python app.py" "<main_file>" = false ∧
    "app.py" ∉ filesOf [⟨"readme.md", "file"⟩] ∧
    run_cmds ["Python"] (filesOf [⟨"app.py", "file"⟩, ⟨"main.py", "file"⟩]) =
      ["python main.py"] := by
  decide

/-- C4 (amended): entry-point resolution per branch: Streamlit prefers
`app.py`, then `main.py`, else a placeholder; Flask prefers `app.py`, then
`main.py`, but with neither present falls back to the concrete command
`python app.py`; the plain-Python branch prefers `main.py`, then `app.py`,
else a placeholder; the Node.js branch performs no entry-point resolution and
always emits `npm start` (plus a comment when React is tagged). -/
theorem entry_point_resolution (files tech_stack : List String)
    (h1 : "app.py" ∉ files) (h2 : "main.py" ∉ files) :
    streamlit_cmds files = ["streamlit run <main_file>.py"] ∧
    flask_cmds files = ["python app.py"] ∧
    python_cmds files = ["python <main_file>.py"] ∧
    node_cmds tech_stack =
      "npm start" :: (if "React" ∈ tech_stack then ["# Or: npm run dev"] else []) ∧
    streamlit_cmds ("app.py" :: "main.py" :: files) = ["streamlit run app.py"] ∧
    streamlit_cmds ("main.py" :: files) = ["streamlit run main.py"] ∧
    flask_cmds ("app.py" :: files) = ["export FLASK_APP=app.py", "flask run"] ∧
    flask_cmds ("main.py" :: files) = ["export FLASK_APP=main.py", "flask run"] ∧
    python_cmds ("main.py" :: "app.py" :: files) = ["python main.py"] ∧
    python_cmds ("app.py" :: files) = ["python app.py"] := by
  refine ⟨?_, ?_, ?_, rfl, ?_, ?_, ?_, ?_, ?_, ?_⟩ <;>
    simp [streamlit_cmds, flask_cmds, python_cmds, h1, h2]

/-- Witness for `entry_point_resolution` at a concrete input. -/
theorem entry_point_resolution_witness :
    streamlit_cmds ["readme.md"] = ["streamlit run <main_file>.py"] ∧
    flask_cmds ["readme.md"] = ["python app.py"] ∧
    python_cmds ["readme.md"] = ["python <main_file>.py"] ∧
    node_cmds ["React"] =
      "npm start" :: (if "React" ∈ ["React"] then ["# Or: npm run dev"] else []) ∧
    streamlit_cmds ("app.py" :: "main.py" :: ["readme.md"]) = ["streamlit run app.py"] ∧
    streamlit_cmds ("main.py" :: ["readme.md"]) = ["streamlit run main.py"] ∧
    flask_cmds ("app.py" :: ["readme.md"]) = ["export FLASK_APP=app.py", "flask run"] ∧
    flask_cmds ("main.py" :: ["readme.md"]) = ["export FLASK_APP=main.py", "flask run"] ∧
    python_cmds ("main.py" :: "app.py" :: ["readme.md"]) = ["python main.py"] ∧
    python_cmds ("app.py" :: ["readme.md"]) = ["python app.py"] :=
  entry_point_resolution ["readme.md"] ["React"] (by decide) (by decide)

/-- C5: the Python generator always yields exactly the fixed
virtual-environment step followed by the dependency-install step, whose
commands are chosen by first match `requirements.txt` → `setup.py` →
`pyproject.toml` → `Pipfile` → placeholder comment; in particular any manifest
containing `requirements.txt` yields exactly
`["pip install -r requirements.txt"]`. -/
theorem python_generator_steps (owner repo : String) (contents : List Item)
    (files : List String) (h : "requirements.txt" ∈ files) :
    generate_python_steps owner repo contents =
      [python_env_step, install_step (filesOf contents)] ∧
    install_commands files = ["pip install -r requirements.txt"] ∧
    install_commands ["setup.py", "pyproject.toml", "pipfile"] = ["pip install -e ."] ∧
    install_commands ["pyproject.toml", "pipfile"] = ["pip install -e ."] ∧
    install_commands ["pipfile"] = ["pip install pipenv", "pipenv install"] ∧
    install_commands ["readme.md"] =
      ["# Check for any Python dependencies and install manually"] ∧
    (install_step (filesOf [⟨"requirements.txt", "file"⟩])).commands =
      ["pip install -r requirements.txt"] := by
  refine ⟨rfl, ?_, by decide, by decide, by decide, by decide, by decide⟩
  simp [install_commands, h]

/-- Witness for `python_generator_steps` at a concrete input (note
`requirements.txt` wins over `setup.py` also present). -/
theorem python_generator_steps_witness :
    generate_python_steps "octocat" "hello" [] =
      [python_env_step, install_step (filesOf [])] ∧
    install_commands ["requirements.txt", "setup.py"] = ["pip install -r requirements.txt"] ∧
    install_commands ["setup.py", "pyproject.toml", "pipfile"] = ["pip install -e ."] ∧
    install_commands ["pyproject.toml", "pipfile"] = ["pip install -e ."] ∧
    install_commands ["pipfile"] = ["pip install pipenv", "pipenv install"] ∧
    install_commands ["readme.md"] =
      ["# Check for any Python dependencies and install manually"] ∧
    (install_step (filesOf [⟨"requirements.txt", "file"⟩])).commands =
      ["pip install -r requirements.txt"] :=
  python_generator_steps "octocat" "hello" [] ["requirements.txt", "setup.py"] (by decide)

/-- C6: the Java generator is first-match: `pom.xml` present yields exactly the
Maven step (`mvn clean install` then a run command), never a Gradle step even
when a gradle file is also present; otherwise any filename containing "gradle"
yields exactly the Gradle wrapper step; otherwise no step at all. -/
theorem java_generator_first_match (contents : List Item)
    (h : "pom.xml" ∈ filesOf contents) :
    generate_java_steps contents = [maven_step] ∧
    maven_step.commands = ["mvn clean install", "mvn spring-boot:run"] ∧
    generate_java_steps [⟨"pom.xml", "file"⟩, ⟨"build.gradle", "file"⟩] = [maven_step] ∧
    generate_java_steps [⟨"build.gradle", "file"⟩] = [gradle_step] ∧
    generate_java_steps [⟨"settings.gradle.kts", "file"⟩] = [gradle_step] ∧
    generate_java_steps [⟨"readme.md", "file"⟩] = [] ∧
    generate_java_steps [] = [] := by
  refine ⟨?_, rfl, by decide, by decide, by decide, by decide, by decide⟩
  simp [generate_java_steps, h]

/-- Witness for `java_generator_first_match` at a concrete input. -/
theorem java_generator_first_match_witness :
    generate_java_steps [⟨"pom.xml", "file"⟩, ⟨"build.gradle", "file"⟩] = [maven_step] ∧
    maven_step.commands = ["mvn clean install", "mvn spring-boot:run"] ∧
    generate_java_steps [⟨"pom.xml", "file"⟩, ⟨"build.gradle", "file"⟩] = [maven_step] ∧
    generate_java_steps [⟨"build.gradle", "file"⟩] = [gradle_step] ∧
    generate_java_steps [⟨"settings.gradle.kts", "file"⟩] = [gradle_step] ∧
    generate_java_steps [⟨"readme.md", "file"⟩] = [] ∧
    generate_java_steps [] = [] :=
  java_generator_first_match [⟨"pom.xml", "file"⟩, ⟨"build.gradle", "file"⟩] (by decide)

/-- C8: the core degrades softly: on the empty manifest with no language the
classifier returns the empty tag collection and the synthesizer returns a plan
consisting of exactly the Clone step. -/
theorem empty_input_soft_degrade (owner repo : String) :
    detect_technologies [] ⟨none⟩ = [] ∧
    generate_setup_steps owner repo (detect_technologies [] ⟨none⟩) ⟨none⟩ [] =
      [clone_step owner repo] := by
  have hd : detect_technologies [] ⟨none⟩ = [] := by decide
  refine ⟨hd, ?_⟩
  rw [hd]
  simp [generate_setup_steps, generate_run_steps, run_cmds, env_cond, filesOf]

/-- `contents` restricted to its entries of kind file. -/
def fileOnly (contents : List Item) : List Item :=
  contents.filter (fun i => i.type == "file")

/-- The derived lowercase name list only sees entries of kind file. -/
theorem filesOf_fileOnly (contents : List Item) :
    filesOf (fileOnly contents) = filesOf contents := by
  simp [filesOf, fileOnly, List.filter_filter]

/-- C9: manifest entries whose kind is not `file` never influence any output:
restricting the manifest to its file entries leaves the classifier result and
the whole setup plan unchanged; in particular directories named `.streamlit`
or `config` trigger neither a tag nor the environment step. -/
theorem directory_entries_ignored (owner repo : String) (tech_stack : List String)
    (repo_data : RepoData) (contents : List Item) :
    detect_technologies (fileOnly contents) repo_data =
      detect_technologies contents repo_data ∧
    generate_setup_steps owner repo tech_stack repo_data (fileOnly contents) =
      generate_setup_steps owner repo tech_stack repo_data contents ∧
    detect_technologies [⟨".streamlit", "dir"⟩, ⟨"config", "dir"⟩] ⟨none⟩ = [] ∧
    env_cond (filesOf [⟨"config", "dir"⟩]) = false := by
  refine ⟨?_, ?_, by decide, by decide⟩
  · simp [detect_technologies, filesOf_fileOnly]
  · simp [generate_setup_steps, generate_python_steps, generate_node_steps,
          generate_java_steps, generate_run_steps, filesOf_fileOnly]

/-- C10: when the cascade reaches the Node.js branch (Node.js tagged, none of
Streamlit/Flask/Django/FastAPI tagged), the run commands are `["npm start"]`
without React, and exactly `["npm start", "# Or: npm run dev"]` with React. -/
theorem node_branch_react_comment (tech_stack files : List String)
    (hn : "Node.js" ∈ tech_stack)
    (h1 : "Streamlit" ∉ tech_stack) (h2 : "Flask" ∉ tech_stack)
    (h3 : "Django" ∉ tech_stack) (h4 : "FastAPI" ∉ tech_stack) :
    run_cmds tech_stack files =
      "npm start" :: (if "React" ∈ tech_stack then ["# Or: npm run dev"] else []) ∧
    run_cmds ["Node.js"] [] = ["npm start"] ∧
    run_cmds ["Node.js", "React"] [] = ["npm start", "# Or: npm run dev"] := by
  refine ⟨?_, by decide, by decide⟩
  simp [run_cmds, node_cmds, hn, h1, h2, h3, h4]

/-- Witness for `node_branch_react_comment` at a concrete input. -/
theorem node_branch_react_comment_witness :
    run_cmds ["Node.js", "React"] ["index.js"] =
      "npm start" :: (if "React" ∈ ["Node.js", "React"] then ["# Or: npm run dev"] else []) ∧
    run_cmds ["Node.js"] [] = ["npm start"] ∧
    run_cmds ["Node.js", "React"] [] = ["npm start", "# Or: npm run dev"] :=
  node_branch_react_comment ["Node.js", "React"] ["index.js"]
    (by decide) (by decide) (by decide) (by decide) (by decide)

/-- Recognizes the Environment Configuration step by its (unique) title. -/
def isEnvStep (s : Step) : Bool := s.title == "⚙️ Environment Configuration"

theorem isEnvStep_clone (owner repo : String) : isEnvStep (clone_step owner repo) = false := rfl

theorem anyEnv_python (owner repo : String) (contents : List Item) :
    (generate_python_steps owner repo contents).any isEnvStep = false := rfl

theorem anyEnv_node (owner repo : String) (contents : List Item) :
    (generate_node_steps owner repo contents).any isEnvStep = false := rfl

theorem anyEnv_docker : generate_docker_steps.any isEnvStep = false := rfl

theorem anyEnv_java (contents : List Item) :
    (generate_java_steps contents).any isEnvStep = false := by
  unfold generate_java_steps
  split
  · rfl
  · split <;> rfl

theorem anyEnv_ite_false {P : Prop} [Decidable P] {l : List Step}
    (h : l.any isEnvStep = false) :
    (if P then l else []).any isEnvStep = false := by
  split
  · exact h
  · rfl

theorem anyEnv_runpart (tech_stack : List String) (contents : List Item) :
    (if run_cmds tech_stack (filesOf contents) = [] then []
     else [run_step_of (run_cmds tech_stack (filesOf contents))]).any isEnvStep = false := by
  split <;> rfl

theorem anyEnv_envpart (files : List String) :
    (if env_cond files then [env_step] else []).any isEnvStep = env_cond files := by
  by_cases h : env_cond files
  · rw [if_pos h, h]
    rfl
  · rw [if_neg h, Bool.not_eq_true] at *
    rw [h]
    rfl

/-- C7: for every manifest and tag collection, the setup plan contains an
Environment Configuration step (whose command sequence is fixed and
instructional) if and only if some file entry's name contains the substring
`.env` or `config` after lowercasing — independently of the detected tags; in
particular a manifest containing `.env.sample` triggers it. -/
theorem env_step_presence (owner repo : String) (tech_stack : List String)
    (repo_data : RepoData) (contents : List Item) :
    (generate_setup_steps owner repo tech_stack repo_data contents).any isEnvStep =
      env_cond (filesOf contents) ∧
    env_step.commands =
      [ "# Copy example environment file (if exists)"
      , "cp .env.example .env"
      , "# Edit .env file with your configurations" ] ∧
    env_cond (filesOf [⟨".env.sample", "file"⟩]) = true ∧
    env_cond (filesOf [⟨"CONFIG.yaml", "file"⟩]) = true := by
  refine ⟨?_, rfl, by decide, by decide⟩
  unfold generate_setup_steps generate_run_steps
  rw [List.any_append, List.any_append, List.any_append, List.any_append,
      List.any_append, List.any_append, List.any_cons, List.any_nil,
      isEnvStep_clone, anyEnv_ite_false (anyEnv_python owner repo contents),
      anyEnv_ite_false (anyEnv_node owner repo contents),
      anyEnv_ite_false anyEnv_docker,
      anyEnv_ite_false (anyEnv_java contents),
      anyEnv_runpart tech_stack contents,
      anyEnv_envpart (filesOf contents)]
  simp
